import Mathlib

/-!
Verification of the layer library excerpt: the elementwise PowerLayer
(forward transform y = (shift + scale * x)^power and its analytic gradient,
from src/caffe/layers/power_layer.cpp) and the resource-lifecycle logic of
CuDNNConvolutionLayer (from src/caffe/layers/cudnn_conv_layer.cpp).

The numeric carrier is ℚ (ideal exact arithmetic); buffers are lists.
The BLAS-like helpers (caffe_set, caffe_copy, caffe_scal, caffe_add_scalar,
caffe_powx, caffe_div, caffe_mul, caffe_cpu_axpby) are library routines of
the repository whose implementation is not part of the excerpt; they are
modelled from the spec as the corresponding elementwise list operations.
-/

namespace Caffe

/-- Modelled from the spec: the scalar power routine underlying `caffe_powx`
(the C library pow). On the rational carrier it is exact for integer
exponents, which is the case in every algebraic property below; a
non-integral exponent generally leaves the rational carrier, so the model
returns the junk value 0 there (no claim evaluates it at a non-integral
exponent). -/
def qpow (z p : ℚ) : ℚ := if p.den = 1 then z ^ p.num else 0

/-- Modelled from the spec: `caffe_set(count, value, out)` fills the output
buffer with `count` copies of a constant. -/
def caffe_set (count : ℕ) (value : ℚ) : List ℚ := List.replicate count value

/-- Modelled from the spec: `caffe_copy(count, src, dst)` copies the buffer. -/
def caffe_copy (xs : List ℚ) : List ℚ := xs

/-- Modelled from the spec: `caffe_scal(count, alpha, x)` multiplies every
element in place by `alpha`. -/
def caffe_scal (alpha : ℚ) (xs : List ℚ) : List ℚ := xs.map fun v => alpha * v

/-- Modelled from the spec: `caffe_add_scalar(count, alpha, x)` adds `alpha`
to every element in place. -/
def caffe_add_scalar (alpha : ℚ) (xs : List ℚ) : List ℚ := xs.map fun v => v + alpha

/-- Modelled from the spec: `caffe_powx(count, a, b, y)` raises every element
of `a` to the power `b`. -/
def caffe_powx (xs : List ℚ) (p : ℚ) : List ℚ := xs.map fun v => qpow v p

/-- Modelled from the spec: `caffe_div(count, a, b, y)` divides elementwise,
`y = a / b`. -/
def caffe_div (xs ys : List ℚ) : List ℚ := List.zipWith (fun a b => a / b) xs ys

/-- Modelled from the spec: `caffe_mul(count, a, b, y)` multiplies
elementwise, `y = a * b`. -/
def caffe_mul (xs ys : List ℚ) : List ℚ := List.zipWith (fun a b => a * b) xs ys

/-- Modelled from the spec: `caffe_cpu_axpby(count, alpha, x, beta, y)`
computes `y = alpha * x + beta * y` elementwise. -/
def caffe_cpu_axpby (alpha : ℚ) (xs : List ℚ) (beta : ℚ) (ys : List ℚ) : List ℚ :=
  List.zipWith (fun x y => alpha * x + beta * y) xs ys

/-- State of a PowerLayer instance: the three configuration scalars and the
derived `diff_scale_`, exactly the fields read by the forward and backward
passes in power_layer.cpp. -/
structure PowerLayer where
  power_ : ℚ
  scale_ : ℚ
  shift_ : ℚ
  diff_scale_ : ℚ

/-- PowerLayer::LayerSetUp (power_layer.cpp lines 11-18): reads `power`,
`scale`, `shift` from the layer parameter and derives
`diff_scale_ = power_ * scale_`. -/
def PowerLayer.LayerSetUp (power scale shift : ℚ) : PowerLayer :=
  { power_ := power, scale_ := scale, shift_ := shift, diff_scale_ := power * scale }

/-- PowerLayer::Forward_cpu (power_layer.cpp lines 21-43): on
`diff_scale_ == 0` broadcast the constant `power_ == 0 ? 1 : pow(shift_,
power_)`; otherwise copy the input, then conditionally scale, shift and
raise to the power. -/
def PowerLayer.Forward_cpu (L : PowerLayer) (bottom_data : List ℚ) : List ℚ :=
  let count := bottom_data.length
  if L.diff_scale_ = 0 then
    caffe_set count (if L.power_ = 0 then 1 else qpow L.shift_ L.power_)
  else
    let top1 := caffe_copy bottom_data
    let top2 := if L.scale_ ≠ 1 then caffe_scal L.scale_ top1 else top1
    let top3 := if L.shift_ ≠ 0 then caffe_add_scalar L.shift_ top2 else top2
    if L.power_ ≠ 1 then caffe_powx top3 L.power_ else top3

/-- Unconditional copy-scale-shift-pow pipeline, following the words of the
spec ("copy input, multiply by scale, add shift, raise to power") with no
conditional skip; the claim compares Forward_cpu against it. -/
def PowerLayer.forward_pipeline_unconditional (L : PowerLayer) (bottom_data : List ℚ) : List ℚ :=
  caffe_powx (caffe_add_scalar L.shift_ (caffe_scal L.scale_ (caffe_copy bottom_data))) L.power_

/-- PowerLayer::Backward_cpu (power_layer.cpp lines 45-95). The extra
argument `bottom_diff0` is the previous content of the bottom diff buffer;
it is returned unchanged when `propagate_down` is false and is the `y`
input of the `beta = 0` axpby in the `power_ == 2` branch. -/
def PowerLayer.Backward_cpu (L : PowerLayer) (propagate_down : Bool)
    (top_diff top_data bottom_data bottom_diff0 : List ℚ) : List ℚ :=
  if propagate_down then
    let count := bottom_data.length
    let bottom_diff :=
      if L.diff_scale_ = 0 ∨ L.power_ = 1 then
        caffe_set count L.diff_scale_
      else if L.power_ = 2 then
        let bd := caffe_cpu_axpby (L.diff_scale_ * L.scale_) bottom_data 0 bottom_diff0
        if L.shift_ ≠ 0 then caffe_add_scalar (L.diff_scale_ * L.shift_) bd else bd
      else if L.shift_ = 0 then
        caffe_scal L.power_ (caffe_div top_data bottom_data)
      else
        let bd1 := caffe_copy bottom_data
        let bd2 := if L.scale_ ≠ 1 then caffe_scal L.scale_ bd1 else bd1
        let bd3 := if L.shift_ ≠ 0 then caffe_add_scalar L.shift_ bd2 else bd2
        let bd4 := caffe_div top_data bd3
        if L.diff_scale_ ≠ 1 then caffe_scal L.diff_scale_ bd4 else bd4
    if L.diff_scale_ ≠ 0 then caffe_mul top_diff bottom_diff else bottom_diff
  else bottom_diff0

/-- Closed-form gradient of the `power_ == 2` branch (power_layer.cpp lines
59-67): `dy/dx = diff_scale * scale * x + diff_scale * shift`. -/
def PowerLayer.grad_pow2 (L : PowerLayer) (x : ℚ) : ℚ :=
  L.diff_scale_ * L.scale_ * x + L.diff_scale_ * L.shift_

/-- Closed-form gradient of the `shift_ == 0` branch (power_layer.cpp lines
68-75): `dy/dx = power * (y / x)` with `y` the forward output. -/
def PowerLayer.grad_shift0 (L : PowerLayer) (x y : ℚ) : ℚ := L.power_ * (y / x)

/-- Gradient of the general branch (power_layer.cpp lines 76-88):
`dy/dx = diff_scale * (y / (scale * x + shift))`. -/
def PowerLayer.grad_general (L : PowerLayer) (x y : ℚ) : ℚ :=
  L.diff_scale_ * (y / (L.scale_ * x + L.shift_))

lemma qpow_one (z : ℚ) : qpow z 1 = z := by simp [qpow]

lemma qpow_two (z : ℚ) : qpow z 2 = z * z := by
  have h2 : ((2 : ℚ)).den = 1 := rfl
  have hn : ((2 : ℚ)).num = 2 := rfl
  simp only [qpow, h2, hn, if_true]
  rw [show (2 : ℤ) = ((2 : ℕ) : ℤ) from rfl, zpow_natCast]
  ring

lemma forward_else_eq (L : PowerLayer) (h : L.diff_scale_ ≠ 0) (xs : List ℚ) :
    L.Forward_cpu xs = xs.map fun x => qpow (L.shift_ + L.scale_ * x) L.power_ := by
  unfold PowerLayer.Forward_cpu
  simp only [if_neg h]
  by_cases h1 : L.scale_ = 1 <;> by_cases h2 : L.shift_ = 0 <;> by_cases h3 : L.power_ = 1 <;>
    simp [caffe_copy, caffe_scal, caffe_add_scalar, caffe_powx, h1, h2, h3,
      List.map_map, Function.comp_def, qpow_one, add_comm]

/-- C1: for every configuration with `diff_scale_ ≠ 0` and every input,
Forward_cpu writes `(shift + scale * x)^power` to every output element, and
the conditional skips of the scale, shift and power steps do not change the
value relative to the unconditional copy-scale-shift-pow pipeline. -/
theorem power_forward_general (power scale shift : ℚ)
    (h : (PowerLayer.LayerSetUp power scale shift).diff_scale_ ≠ 0) (bottom_data : List ℚ) :
    (PowerLayer.LayerSetUp power scale shift).Forward_cpu bottom_data
        = bottom_data.map (fun x => qpow (shift + scale * x) power)
      ∧ (PowerLayer.LayerSetUp power scale shift).Forward_cpu bottom_data
        = (PowerLayer.LayerSetUp power scale shift).forward_pipeline_unconditional bottom_data := by
  constructor
  · exact forward_else_eq _ h bottom_data
  · rw [forward_else_eq _ h bottom_data]
    simp [PowerLayer.forward_pipeline_unconditional, PowerLayer.LayerSetUp,
      caffe_copy, caffe_scal, caffe_add_scalar, caffe_powx, List.map_map,
      Function.comp_def, add_comm]

/-- C1 witness: the configuration power = 2, scale = 1, shift = 3 on input
[1, 2] has nonzero diff_scale and Forward_cpu computes (3 + x)^2. -/
theorem power_forward_general_witness :
    (PowerLayer.LayerSetUp 2 1 3).diff_scale_ ≠ 0
      ∧ (PowerLayer.LayerSetUp 2 1 3).Forward_cpu [1, 2] = [16, 25] := by
  have h : (PowerLayer.LayerSetUp 2 1 3).diff_scale_ ≠ 0 := by
    norm_num [PowerLayer.LayerSetUp]
  refine ⟨h, ?_⟩
  rw [(power_forward_general 2 1 3 h [1, 2]).1]
  norm_num [qpow, PowerLayer.LayerSetUp]

/-- C2: for every configuration with `diff_scale_ == 0`, Forward_cpu sets
every output element to 1 when `power_ == 0` and to `shift^power` otherwise,
and never reads the input: two inputs of equal length give identical
output. -/
theorem power_forward_const (power scale shift : ℚ)
    (h : (PowerLayer.LayerSetUp power scale shift).diff_scale_ = 0) (xs ys : List ℚ)
    (hlen : xs.length = ys.length) :
    (PowerLayer.LayerSetUp power scale shift).Forward_cpu xs
        = List.replicate xs.length (if power = 0 then 1 else qpow shift power)
      ∧ (PowerLayer.LayerSetUp power scale shift).Forward_cpu xs
        = (PowerLayer.LayerSetUp power scale shift).Forward_cpu ys := by
  refine ⟨?_, ?_⟩
  · simp only [PowerLayer.Forward_cpu, h]
    simp [caffe_set, PowerLayer.LayerSetUp]
  · simp only [PowerLayer.Forward_cpu, h]
    simp [caffe_set, hlen]

/-- C2 witness: power = 0, scale = 5, shift = 7 has diff_scale 0; on the
inputs [100, 200] and [0, 0] (equal length) the output is [1, 1] both
times. -/
theorem power_forward_const_witness :
    (PowerLayer.LayerSetUp 0 5 7).diff_scale_ = 0
      ∧ ([(100 : ℚ), 200].length = [(0 : ℚ), 0].length)
      ∧ (PowerLayer.LayerSetUp 0 5 7).Forward_cpu [100, 200] = [1, 1]
      ∧ (PowerLayer.LayerSetUp 0 5 7).Forward_cpu [100, 200]
        = (PowerLayer.LayerSetUp 0 5 7).Forward_cpu [0, 0] := by
  have h : (PowerLayer.LayerSetUp 0 5 7).diff_scale_ = 0 := by
    norm_num [PowerLayer.LayerSetUp]
  have hlen : ([(100 : ℚ), 200].length = [(0 : ℚ), 0].length) := rfl
  have hmain := power_forward_const 0 5 7 h [100, 200] [0, 0] hlen
  refine ⟨h, hlen, ?_, hmain.2⟩
  rw [hmain.1]
  norm_num [List.replicate_succ]

lemma zipWith_mul_replicate_right (l : List ℚ) (n : ℕ) (a : ℚ) (h : l.length = n) :
    List.zipWith (fun x y => x * y) l (List.replicate n a) = l.map fun x => x * a := by
  induction l generalizing n with
  | nil => simp
  | cons x xs ih =>
    cases n with
    | zero => simp at h
    | succ m =>
      simp only [List.replicate_succ, List.zipWith_cons_cons, List.map_cons]
      exact congrArg _ (ih m (by simpa using h))

/-- C5: for every configuration with `power_ == 1` and `diff_scale_ ≠ 0`,
Backward_cpu (propagate_down true) sets every element of bottom_diff to
`top_diff * diff_scale`; in particular for power 1, scale 2, shift 3 the
forward output on [1, 2, 3] is [5, 7, 9] and diff_scale is 2. -/
theorem power_backward_identity (scale shift : ℚ)
    (h : (PowerLayer.LayerSetUp 1 scale shift).diff_scale_ ≠ 0)
    (top_diff top_data bottom_data bottom_diff0 : List ℚ)
    (hlen : top_diff.length = bottom_data.length) :
    (PowerLayer.LayerSetUp 1 scale shift).Backward_cpu true
          top_diff top_data bottom_data bottom_diff0
        = top_diff.map (fun t => t * (PowerLayer.LayerSetUp 1 scale shift).diff_scale_)
      ∧ (PowerLayer.LayerSetUp 1 2 3).Forward_cpu [1, 2, 3] = [5, 7, 9]
      ∧ (PowerLayer.LayerSetUp 1 2 3).diff_scale_ = 2 := by
  refine ⟨?_, ?_, by norm_num [PowerLayer.LayerSetUp]⟩
  · have hpow : (PowerLayer.LayerSetUp 1 scale shift).power_ = 1 := rfl
    simp only [PowerLayer.Backward_cpu, if_pos, hpow, h, or_true, if_true, ite_true,
      ite_not, caffe_set, caffe_mul, if_neg (not_not_intro h)]
    exact zipWith_mul_replicate_right top_diff bottom_data.length _ hlen
  · norm_num [PowerLayer.Forward_cpu, PowerLayer.LayerSetUp, caffe_copy, caffe_scal,
      caffe_add_scalar, caffe_powx, caffe_set]

/-- C5 witness: at scale 2, shift 3, top_diff [10, 20, 30], bottom data
[1, 2, 3], the backward output is top_diff times diff_scale 2. -/
theorem power_backward_identity_witness :
    (PowerLayer.LayerSetUp 1 2 3).diff_scale_ ≠ 0
      ∧ (PowerLayer.LayerSetUp 1 2 3).Backward_cpu true
          [10, 20, 30] [5, 7, 9] [1, 2, 3] [0, 0, 0] = [20, 40, 60] := by
  have h : (PowerLayer.LayerSetUp 1 2 3).diff_scale_ ≠ 0 := by
    norm_num [PowerLayer.LayerSetUp]
  refine ⟨h, ?_⟩
  rw [(power_backward_identity 2 3 h [10, 20, 30] [5, 7, 9] [1, 2, 3] [0, 0, 0] rfl).1]
  norm_num [PowerLayer.LayerSetUp]

/-- C6: for every configuration with `diff_scale_ == 0`, Backward_cpu
(propagate_down true) sets every element of bottom_diff to the constant
`diff_scale_` (that is, 0) and skips the final multiplication by top_diff,
so the result does not depend on top_diff at all. -/
theorem power_backward_zero_diff_scale (power scale shift : ℚ)
    (h : (PowerLayer.LayerSetUp power scale shift).diff_scale_ = 0)
    (top_diff top_data bottom_data bottom_diff0 : List ℚ) :
    (PowerLayer.LayerSetUp power scale shift).Backward_cpu true
          top_diff top_data bottom_data bottom_diff0
        = List.replicate bottom_data.length 0 := by
  simp only [PowerLayer.Backward_cpu, h, true_or, if_true, caffe_set, ite_true,
    eq_self_iff_true, not_true, ite_false, if_neg (not_not_intro h), ite_not]

/-- C6 witness: power 0, scale 5, shift 7 has diff_scale 0; backward on a
top_diff of [100, 200] and bottom data [1, 2] yields [0, 0]. -/
theorem power_backward_zero_diff_scale_witness :
    (PowerLayer.LayerSetUp 0 5 7).diff_scale_ = 0
      ∧ (PowerLayer.LayerSetUp 0 5 7).Backward_cpu true
          [100, 200] [1, 1] [1, 2] [3, 4] = [0, 0] := by
  have h : (PowerLayer.LayerSetUp 0 5 7).diff_scale_ = 0 := by
    norm_num [PowerLayer.LayerSetUp]
  refine ⟨h, ?_⟩
  rw [power_backward_zero_diff_scale 0 5 7 h [100, 200] [1, 1] [1, 2] [3, 4]]
  norm_num [List.replicate_succ]

/-- C7: for `power_ == 2` with arbitrary scale and shift, and every x with
`shift ≠ 0` and `x ≠ 0`, the closed-form gradient of the power==2 branch
equals the general-branch gradient `diff_scale * y / (shift + scale * x)`
with `y = (shift + scale * x)^2`, exactly in the rational model. -/
theorem power_grad_pow2_eq_general (scale shift x : ℚ)
    (hsh : shift ≠ 0) (hx : x ≠ 0) :
    (PowerLayer.LayerSetUp 2 scale shift).grad_pow2 x
      = (PowerLayer.LayerSetUp 2 scale shift).grad_general x
          (qpow (shift + scale * x) 2) := by
  simp only [PowerLayer.grad_pow2, PowerLayer.grad_general, PowerLayer.LayerSetUp, qpow_two]
  rcases eq_or_ne (scale * x + shift) 0 with hz | hz
  · rw [hz, div_zero, mul_zero]
    linear_combination 2 * scale * hz
  · field_simp
    ring

/-- C7 witness: at scale 1, shift 1, x 1 both gradient formulas evaluate
to 4. -/
theorem power_grad_pow2_eq_general_witness :
    (1 : ℚ) ≠ 0 ∧ (PowerLayer.LayerSetUp 2 1 1).grad_pow2 1 = 4
      ∧ (PowerLayer.LayerSetUp 2 1 1).grad_general 1 (qpow (1 + 1 * 1) 2) = 4 := by
  have h := power_grad_pow2_eq_general 1 1 1 (by norm_num) (by norm_num)
  refine ⟨by norm_num, ?_, ?_⟩
  · norm_num [PowerLayer.grad_pow2, PowerLayer.LayerSetUp]
  · rw [← h]
    norm_num [PowerLayer.grad_pow2, PowerLayer.LayerSetUp]

/-- C8: for `shift_ == 0`, power outside 1 and 2, `diff_scale_ ≠ 0`, and
every nonzero x, the shift==0 branch gradient `power * y / x` (with y the
forward value of the scale-x product raised to the power) equals the
general-branch gradient `diff_scale * y / (scale * x + shift)`, exactly in
the rational model. -/
theorem power_grad_shift0_eq_general (power scale x : ℚ)
    (hp1 : power ≠ 1) (hp2 : power ≠ 2)
    (h : (PowerLayer.LayerSetUp power scale 0).diff_scale_ ≠ 0) (hx : x ≠ 0) :
    (PowerLayer.LayerSetUp power scale 0).grad_shift0 x (qpow (scale * x) power)
      = (PowerLayer.LayerSetUp power scale 0).grad_general x (qpow (scale * x) power) := by
  have hs : scale ≠ 0 := by
    intro e
    exact h (by simp [PowerLayer.LayerSetUp, e])
  simp only [PowerLayer.grad_shift0, PowerLayer.grad_general, PowerLayer.LayerSetUp, add_zero]
  generalize qpow (scale * x) power = y
  field_simp
  ring

/-- C8 witness: at power 3, scale 1, x 2 (so y = 8) both formulas give 12. -/
theorem power_grad_shift0_eq_general_witness :
    (3 : ℚ) ≠ 1 ∧ (3 : ℚ) ≠ 2 ∧ (PowerLayer.LayerSetUp 3 1 0).diff_scale_ ≠ 0
      ∧ (2 : ℚ) ≠ 0
      ∧ (PowerLayer.LayerSetUp 3 1 0).grad_shift0 2 (qpow (1 * 2) 3)
        = (PowerLayer.LayerSetUp 3 1 0).grad_general 2 (qpow (1 * 2) 3) := by
  refine ⟨by norm_num, by norm_num, by norm_num [PowerLayer.LayerSetUp], by norm_num, ?_⟩
  exact power_grad_shift0_eq_general 3 1 2 (by norm_num) (by norm_num)
    (by norm_num [PowerLayer.LayerSetUp]) (by norm_num)

/-- C10: when propagate_down is false, Backward_cpu performs no work: the
bottom diff buffer is returned entirely unchanged, for every configuration
and all buffer contents. -/
theorem power_backward_no_propagate (L : PowerLayer)
    (top_diff top_data bottom_data bottom_diff0 : List ℚ) :
    L.Backward_cpu false top_diff top_data bottom_data bottom_diff0 = bottom_diff0 := rfl

namespace CuDNNConvolutionLayer

/-- Configuration read by CuDNNConvolutionLayer::LayerSetUp: number of
bottom (input) blobs and the base-layer fields it consumes
(cudnn_conv_layer.cpp lines 18-87). -/
structure ConvConfig where
  nbottom : ℕ
  num_output_ : ℕ
  group_ : ℕ
  channels_ : ℕ
  kernel_h : ℕ
  kernel_w : ℕ
  bias_term_ : Bool

/-- Identity of each externally managed resource owned by the layer: the
per-input tensor and convolution descriptors, the filter and bias
descriptors, the six bookkeeping arrays, and the shared scratch buffer. -/
inductive Resource where
  | bottomDesc (i : ℕ)
  | topDesc (i : ℕ)
  | fwdConvDesc (i : ℕ)
  | bwdConvDesc (i : ℕ)
  | biasDesc
  | fwdFilterDesc
  | bwdFilterDesc
  | fwdAlgoArr
  | bwdFilterAlgoArr
  | bwdDataAlgoArr
  | fwdSizesArr
  | bwdFilterSizesArr
  | bwdDataSizesArr
  | workspaceBuf
deriving DecidableEq

/-- Events emitted by LayerSetUp, in program order: array allocations,
descriptor creations, and the final write of the `handles_setup_` flag. -/
inductive SEvent where
  | allocAlgoArrays
  | allocSizeArrays
  | createFwdFilterDesc
  | createBwdFilterDesc
  | createBottomDesc (i : ℕ)
  | createTopDesc (i : ℕ)
  | createFwdConvDesc (i : ℕ)
  | createBwdConvDesc (i : ℕ)
  | createBiasDesc
  | setHandlesSetup
deriving DecidableEq

/-- State of a CuDNNConvolutionLayer instance: exactly the members written
by LayerSetUp, Reshape and the destructor in cudnn_conv_layer.cpp.
Descriptor vectors hold abstract handle identifiers; `workspaceData = none`
models the null pointer. -/
structure ConvState where
  handles_setup_ : Bool
  bias_term_ : Bool
  fwd_algo_ : List ℕ
  bwd_filter_algo_ : List ℕ
  bwd_data_algo_ : List ℕ
  workspace_fwd_sizes_ : List ℕ
  workspace_bwd_filter_sizes_ : List ℕ
  workspace_bwd_data_sizes_ : List ℕ
  workspaceSizeInBytes : ℕ
  workspaceData : Option ℕ
  bottom_descs_ : List ℕ
  top_descs_ : List ℕ
  fwd_conv_descs_ : List ℕ
  bwd_conv_descs_ : List ℕ
  bias_offset_ : ℕ
  weight_offset_ : ℕ

/-- Events emitted by LayerSetUp before the code sets `handles_setup_`:
array allocations (lines 24-31), the two filter descriptors (lines 55-60),
the per-input tensor and convolution descriptors (lines 66-79), and the
bias descriptor when `bias_term_` is set (lines 82-84). -/
def LayerSetUpTracePre (cfg : ConvConfig) : List SEvent :=
  [SEvent.allocAlgoArrays, SEvent.allocSizeArrays,
   SEvent.createFwdFilterDesc, SEvent.createBwdFilterDesc]
    ++ (List.range cfg.nbottom).flatMap (fun i =>
        [SEvent.createBottomDesc i, SEvent.createTopDesc i,
         SEvent.createFwdConvDesc i, SEvent.createBwdConvDesc i])
    ++ (if cfg.bias_term_ then [SEvent.createBiasDesc] else [])

/-- CuDNNConvolutionLayer::LayerSetUp (cudnn_conv_layer.cpp lines 18-87):
allocates the six per-input bookkeeping arrays, initializes every entry to
the default algorithm 0 and workspace size 0, zeroes `workspaceSizeInBytes`
and nulls `workspaceData`, creates the filter, per-input tensor and
convolution descriptors (and the bias descriptor when `bias_term_`), and
sets `handles_setup_` to true last. Returns the resulting state and the
event trace in program order. -/
def LayerSetUp (cfg : ConvConfig) : ConvState × List SEvent :=
  let n := cfg.nbottom
  ({ handles_setup_ := true
     bias_term_ := cfg.bias_term_
     fwd_algo_ := List.replicate n 0
     bwd_filter_algo_ := List.replicate n 0
     bwd_data_algo_ := List.replicate n 0
     workspace_fwd_sizes_ := List.replicate n 0
     workspace_bwd_filter_sizes_ := List.replicate n 0
     workspace_bwd_data_sizes_ := List.replicate n 0
     workspaceSizeInBytes := 0
     workspaceData := none
     bottom_descs_ := List.range n
     top_descs_ := List.range n
     fwd_conv_descs_ := List.range n
     bwd_conv_descs_ := List.range n
     bias_offset_ := cfg.num_output_ / cfg.group_
     weight_offset_ := cfg.num_output_ / cfg.group_ * (cfg.channels_ / cfg.group_)
       * cfg.kernel_h * cfg.kernel_w },
   LayerSetUpTracePre cfg ++ [SEvent.setHandlesSetup])

/-- Oracle standing for the external kernel provider: per input index, the
chosen forward, backward-filter and backward-data algorithms and their
workspace sizes (cuDNN algorithm-selection and workspace-size queries). -/
structure CudnnOracle where
  fwdAlgo : ℕ → ℕ
  fwdSize : ℕ → ℕ
  bwdFilterAlgo : ℕ → ℕ
  bwdFilterSize : ℕ → ℕ
  bwdDataAlgo : ℕ → ℕ
  bwdDataSize : ℕ → ℕ

/-- Events emitted by Reshape, in program order: the delegated base-layer
reshape, the 2-spatial-axis check, per-input descriptor configuration and
algorithm/workspace queries, and the bias descriptor configuration. -/
inductive REvent where
  | baseReshape
  | checkSpatialAxes
  | setBottomDesc (i : ℕ)
  | setTopDesc (i : ℕ)
  | setFwdConvDesc (i : ℕ)
  | queryFwdAlgo (i : ℕ)
  | queryFwdSize (i : ℕ)
  | setBwdConvDesc (i : ℕ)
  | queryBwdFilterAlgo (i : ℕ)
  | queryBwdFilterSize (i : ℕ)
  | queryBwdDataAlgo (i : ℕ)
  | queryBwdDataSize (i : ℕ)
  | setBiasDesc
deriving DecidableEq

/-- Fatal configuration message of the CHECK_EQ at cudnn_conv_layer.cpp
lines 93-96. -/
def spatialAxesErrorMsg : String :=
  "CuDNNConvolution input must have 2 spatial axes (e.g., height and width). Use engine CAFFE for general ND convolution."

/-- CuDNNConvolutionLayer::Reshape (cudnn_conv_layer.cpp lines 89-184):
after the delegated base reshape, CHECK_EQ(2, num_spatial_axes_) aborts
with a fatal configuration error before any descriptor configuration or
algorithm selection; otherwise each input descriptor pair is configured and
the provider is queried for algorithms and workspace sizes. The geometry
fields (offsets, strides) not referenced by any claim are omitted. -/
def Reshape (o : CudnnOracle) (num_spatial_axes_ : ℕ) (s : ConvState) :
    Except String ConvState × List REvent :=
  if num_spatial_axes_ ≠ 2 then
    (Except.error spatialAxesErrorMsg, [REvent.baseReshape, REvent.checkSpatialAxes])
  else
    let n := s.bottom_descs_.length
    (Except.ok { s with
        fwd_algo_ := (List.range n).map o.fwdAlgo
        workspace_fwd_sizes_ := (List.range n).map o.fwdSize
        bwd_filter_algo_ := (List.range n).map o.bwdFilterAlgo
        workspace_bwd_filter_sizes_ := (List.range n).map o.bwdFilterSize
        bwd_data_algo_ := (List.range n).map o.bwdDataAlgo
        workspace_bwd_data_sizes_ := (List.range n).map o.bwdDataSize },
     [REvent.baseReshape, REvent.checkSpatialAxes]
       ++ (List.range n).flatMap (fun i =>
          [REvent.setBottomDesc i, REvent.setTopDesc i, REvent.setFwdConvDesc i,
           REvent.queryFwdAlgo i, REvent.queryFwdSize i, REvent.setBwdConvDesc i,
           REvent.queryBwdFilterAlgo i, REvent.queryBwdFilterSize i,
           REvent.queryBwdDataAlgo i, REvent.queryBwdDataSize i])
       ++ (if s.bias_term_ then [REvent.setBiasDesc] else []))

/-- Destructor of CuDNNConvolutionLayer (cudnn_conv_layer.cpp lines
186-212): a no-op when `handles_setup_` is false; otherwise it destroys the
four descriptors of every input index, the bias descriptor when
`bias_term_`, the two filter descriptors, frees the six bookkeeping arrays,
deallocates the scratch buffer and nulls `workspaceData`. Returns the
release trace in program order and the final state. -/
def destructor (s : ConvState) : List Resource × ConvState :=
  if s.handles_setup_ = false then ([], s)
  else
    (((List.range s.bottom_descs_.length).flatMap fun i =>
        [Resource.bottomDesc i, Resource.topDesc i,
         Resource.fwdConvDesc i, Resource.bwdConvDesc i])
      ++ (if s.bias_term_ then [Resource.biasDesc] else [])
      ++ [Resource.fwdFilterDesc, Resource.bwdFilterDesc,
          Resource.fwdAlgoArr, Resource.bwdFilterAlgoArr, Resource.bwdDataAlgoArr,
          Resource.fwdSizesArr, Resource.bwdDataSizesArr, Resource.bwdFilterSizesArr,
          Resource.workspaceBuf],
     { s with workspaceData := none })

lemma sum_map_range_ite (n j : ℕ) :
    ((List.range n).map fun i => if j = i then (1 : ℕ) else 0).sum = if j < n then 1 else 0 := by
  induction n with
  | zero => simp
  | succ m ih =>
    rw [List.range_succ, List.map_append, List.sum_append, ih]
    simp only [List.map_cons, List.map_nil, List.sum_cons, List.sum_nil]
    split_ifs <;> omega

lemma count_flatMap_range {α : Type} [DecidableEq α] (g : ℕ → List α) (a : α) (n j : ℕ)
    (hj : j < n) (hcount : ∀ i, (g i).count a = if j = i then 1 else 0) :
    ((List.range n).flatMap g).count a = 1 := by
  rw [List.count_flatMap]
  simp only [Function.comp_def, hcount]
  rw [sum_map_range_ite n j, if_pos hj]

/-- C3: Reshape fails with the fatal 2-spatial-axis configuration error
whenever the spatial-axis count differs from 2, and does so before any
descriptor configuration or algorithm selection (the error trace holds only
the base reshape and the check); with exactly 2 spatial axes no such error
occurs. -/
theorem cudnn_reshape_spatial_axes (o : CudnnOracle) (s : ConvState) (axes : ℕ) :
    (axes ≠ 2 →
        (Reshape o axes s).1 = Except.error spatialAxesErrorMsg
          ∧ ∀ e ∈ (Reshape o axes s).2,
              e = REvent.baseReshape ∨ e = REvent.checkSpatialAxes)
      ∧ (axes = 2 → ∃ s2, (Reshape o axes s).1 = Except.ok s2) := by
  constructor
  · intro h
    constructor
    · simp [Reshape, h]
    · intro e he
      simp only [Reshape, if_pos h] at he
      simpa using he
  · intro h
    subst h
    exact ⟨_, rfl⟩

/-- C3 witness: with a trivial oracle and the state produced by LayerSetUp
on a one-input configuration, Reshape at 3 spatial axes returns the fatal
error and Reshape at 2 spatial axes succeeds. -/
theorem cudnn_reshape_spatial_axes_witness :
    ((Reshape ⟨fun _ => 0, fun _ => 0, fun _ => 0, fun _ => 0, fun _ => 0, fun _ => 0⟩ 3
        (LayerSetUp ⟨1, 4, 1, 2, 3, 3, true⟩).1).1 = Except.error spatialAxesErrorMsg)
      ∧ ∃ s2, (Reshape ⟨fun _ => 0, fun _ => 0, fun _ => 0, fun _ => 0, fun _ => 0, fun _ => 0⟩ 2
        (LayerSetUp ⟨1, 4, 1, 2, 3, 3, true⟩).1).1 = Except.ok s2 :=
  ⟨((cudnn_reshape_spatial_axes ⟨fun _ => 0, fun _ => 0, fun _ => 0, fun _ => 0, fun _ => 0,
      fun _ => 0⟩ (LayerSetUp ⟨1, 4, 1, 2, 3, 3, true⟩).1 3).1 (by decide)).1,
   (cudnn_reshape_spatial_axes ⟨fun _ => 0, fun _ => 0, fun _ => 0, fun _ => 0, fun _ => 0,
      fun _ => 0⟩ (LayerSetUp ⟨1, 4, 1, 2, 3, 3, true⟩).1 2).2 rfl⟩

/-- C9: after LayerSetUp, every per-input algorithm choice is the default
algorithm 0 with workspace size 0, `workspaceSizeInBytes` is 0 with
`workspaceData` null, and `handles_setup_` is true, written only after all
descriptor creations and allocations (it is the unique final event of the
setup trace). -/
theorem cudnn_layersetup_defaults (cfg : ConvConfig) (i : ℕ) (hi : i < cfg.nbottom) :
    ((LayerSetUp cfg).1.fwd_algo_)[i]? = some 0
      ∧ ((LayerSetUp cfg).1.bwd_filter_algo_)[i]? = some 0
      ∧ ((LayerSetUp cfg).1.bwd_data_algo_)[i]? = some 0
      ∧ ((LayerSetUp cfg).1.workspace_fwd_sizes_)[i]? = some 0
      ∧ ((LayerSetUp cfg).1.workspace_bwd_filter_sizes_)[i]? = some 0
      ∧ ((LayerSetUp cfg).1.workspace_bwd_data_sizes_)[i]? = some 0
      ∧ (LayerSetUp cfg).1.workspaceSizeInBytes = 0
      ∧ (LayerSetUp cfg).1.workspaceData = none
      ∧ (LayerSetUp cfg).1.handles_setup_ = true
      ∧ ((LayerSetUp cfg).2).getLast? = some SEvent.setHandlesSetup
      ∧ ((LayerSetUp cfg).2).count SEvent.setHandlesSetup = 1 := by
  have hnot : SEvent.setHandlesSetup ∉ LayerSetUpTracePre cfg := by
    cases hb : cfg.bias_term_ <;>
      simp [LayerSetUpTracePre, hb, List.mem_flatMap, List.mem_range]
  refine ⟨?_, ?_, ?_, ?_, ?_, ?_, rfl, rfl, rfl, ?_, ?_⟩
  · simp [LayerSetUp, List.getElem?_replicate, hi]
  · simp [LayerSetUp, List.getElem?_replicate, hi]
  · simp [LayerSetUp, List.getElem?_replicate, hi]
  · simp [LayerSetUp, List.getElem?_replicate, hi]
  · simp [LayerSetUp, List.getElem?_replicate, hi]
  · simp [LayerSetUp, List.getElem?_replicate, hi]
  · show (LayerSetUpTracePre cfg ++ [SEvent.setHandlesSetup]).getLast? = _
    rw [List.getLast?_concat]
  · show (LayerSetUpTracePre cfg ++ [SEvent.setHandlesSetup]).count _ = 1
    rw [List.count_append, List.count_eq_zero.2 hnot]
    rfl

/-- C9 witness: a two-input configuration with bias, checked at input
index 1. -/
theorem cudnn_layersetup_defaults_witness :
    (1 < 2)
      ∧ ((LayerSetUp ⟨2, 4, 2, 6, 3, 3, true⟩).1.fwd_algo_)[1]? = some 0
      ∧ (LayerSetUp ⟨2, 4, 2, 6, 3, 3, true⟩).1.workspaceData = none
      ∧ ((LayerSetUp ⟨2, 4, 2, 6, 3, 3, true⟩).2).getLast? = some SEvent.setHandlesSetup := by
  have h := cudnn_layersetup_defaults ⟨2, 4, 2, 6, 3, 3, true⟩ 1 (by decide)
  exact ⟨by decide, h.1, h.2.2.2.2.2.2.2.1, h.2.2.2.2.2.2.2.2.2.1⟩

/-- C4: destroying a layer whose `handles_setup_` is false releases nothing
and leaves the state unchanged; destroying the layer produced by LayerSetUp
releases each per-input tensor and convolution descriptor exactly once, the
bias descriptor exactly when `bias_term_`, both filter descriptors once,
frees each of the six bookkeeping arrays once, deallocates the scratch
buffer once and nulls `workspaceData`. -/
theorem cudnn_destructor_release (cfg : ConvConfig) (s : ConvState)
    (hs : s.handles_setup_ = false) (j : ℕ) (hj : j < cfg.nbottom) :
    destructor s = ([], s)
      ∧ (destructor (LayerSetUp cfg).1).1.count (Resource.bottomDesc j) = 1
      ∧ (destructor (LayerSetUp cfg).1).1.count (Resource.topDesc j) = 1
      ∧ (destructor (LayerSetUp cfg).1).1.count (Resource.fwdConvDesc j) = 1
      ∧ (destructor (LayerSetUp cfg).1).1.count (Resource.bwdConvDesc j) = 1
      ∧ (destructor (LayerSetUp cfg).1).1.count Resource.biasDesc
          = (if cfg.bias_term_ then 1 else 0)
      ∧ (destructor (LayerSetUp cfg).1).1.count Resource.fwdFilterDesc = 1
      ∧ (destructor (LayerSetUp cfg).1).1.count Resource.bwdFilterDesc = 1
      ∧ (destructor (LayerSetUp cfg).1).1.count Resource.fwdAlgoArr = 1
      ∧ (destructor (LayerSetUp cfg).1).1.count Resource.bwdFilterAlgoArr = 1
      ∧ (destructor (LayerSetUp cfg).1).1.count Resource.bwdDataAlgoArr = 1
      ∧ (destructor (LayerSetUp cfg).1).1.count Resource.fwdSizesArr = 1
      ∧ (destructor (LayerSetUp cfg).1).1.count Resource.bwdDataSizesArr = 1
      ∧ (destructor (LayerSetUp cfg).1).1.count Resource.bwdFilterSizesArr = 1
      ∧ (destructor (LayerSetUp cfg).1).1.count Resource.workspaceBuf = 1
      ∧ (destructor (LayerSetUp cfg).1).2.workspaceData = none := by
  have hlen : ((LayerSetUp cfg).1.bottom_descs_).length = cfg.nbottom := by
    simp [LayerSetUp]
  have htr : (destructor (LayerSetUp cfg).1).1
      = ((List.range cfg.nbottom).flatMap fun i =>
          [Resource.bottomDesc i, Resource.topDesc i,
           Resource.fwdConvDesc i, Resource.bwdConvDesc i])
        ++ ((if cfg.bias_term_ then [Resource.biasDesc] else [])
        ++ [Resource.fwdFilterDesc, Resource.bwdFilterDesc,
            Resource.fwdAlgoArr, Resource.bwdFilterAlgoArr, Resource.bwdDataAlgoArr,
            Resource.fwdSizesArr, Resource.bwdDataSizesArr, Resource.bwdFilterSizesArr,
            Resource.workspaceBuf]) := by
    simp [destructor, LayerSetUp]
  refine ⟨by simp [destructor, hs], ?_, ?_, ?_, ?_, ?_, ?_, ?_, ?_, ?_, ?_, ?_, ?_, ?_, ?_,
    by simp [destructor, LayerSetUp]⟩ <;>
    rw [htr, List.count_append] <;>
    [skip; skip; skip; skip;
     (rw [List.count_eq_zero.2 (by simp [List.mem_flatMap])]
      cases hb : cfg.bias_term_ <;> simp [hb, List.count_cons]);
     (rw [List.count_eq_zero.2 (by simp [List.mem_flatMap])]
      cases hb : cfg.bias_term_ <;> simp [hb, List.count_cons]);
     (rw [List.count_eq_zero.2 (by simp [List.mem_flatMap])]
      cases hb : cfg.bias_term_ <;> simp [hb, List.count_cons]);
     (rw [List.count_eq_zero.2 (by simp [List.mem_flatMap])]
      cases hb : cfg.bias_term_ <;> simp [hb, List.count_cons]);
     (rw [List.count_eq_zero.2 (by simp [List.mem_flatMap])]
      cases hb : cfg.bias_term_ <;> simp [hb, List.count_cons]);
     (rw [List.count_eq_zero.2 (by simp [List.mem_flatMap])]
      cases hb : cfg.bias_term_ <;> simp [hb, List.count_cons]);
     (rw [List.count_eq_zero.2 (by simp [List.mem_flatMap])]
      cases hb : cfg.bias_term_ <;> simp [hb, List.count_cons]);
     (rw [List.count_eq_zero.2 (by simp [List.mem_flatMap])]
      cases hb : cfg.bias_term_ <;> simp [hb, List.count_cons]);
     (rw [List.count_eq_zero.2 (by simp [List.mem_flatMap])]
      cases hb : cfg.bias_term_ <;> simp [hb, List.count_cons]);
     (rw [List.count_eq_zero.2 (by simp [List.mem_flatMap])]
      cases hb : cfg.bias_term_ <;> simp [hb, List.count_cons])]
  · rw [count_flatMap_range _ _ _ j hj
      (fun i => by by_cases h : j = i <;> simp [h, List.count_cons]),
      List.count_eq_zero.2 (by cases hb : cfg.bias_term_ <;> simp [hb])]
  · rw [count_flatMap_range _ _ _ j hj
      (fun i => by by_cases h : j = i <;> simp [h, List.count_cons]),
      List.count_eq_zero.2 (by cases hb : cfg.bias_term_ <;> simp [hb])]
  · rw [count_flatMap_range _ _ _ j hj
      (fun i => by by_cases h : j = i <;> simp [h, List.count_cons]),
      List.count_eq_zero.2 (by cases hb : cfg.bias_term_ <;> simp [hb])]
  · rw [count_flatMap_range _ _ _ j hj
      (fun i => by by_cases h : j = i <;> simp [h, List.count_cons]),
      List.count_eq_zero.2 (by cases hb : cfg.bias_term_ <;> simp [hb])]

/-- C4 witness: a never-set-up state is destroyed as a no-op, and the
one-input with-bias layer built by LayerSetUp releases its input-0
descriptors and scratch buffer exactly once. -/
theorem cudnn_destructor_release_witness :
    destructor ⟨false, true, [], [], [], [], [], [], 0, none, [], [], [], [], 0, 0⟩
        = ([], ⟨false, true, [], [], [], [], [], [], 0, none, [], [], [], [], 0, 0⟩)
      ∧ (destructor (LayerSetUp ⟨1, 4, 1, 2, 3, 3, true⟩).1).1.count (Resource.bottomDesc 0) = 1
      ∧ (destructor (LayerSetUp ⟨1, 4, 1, 2, 3, 3, true⟩).1).1.count Resource.workspaceBuf = 1
      ∧ (destructor (LayerSetUp ⟨1, 4, 1, 2, 3, 3, true⟩).1).2.workspaceData = none := by
  have h := cudnn_destructor_release ⟨1, 4, 1, 2, 3, 3, true⟩
    ⟨false, true, [], [], [], [], [], [], 0, none, [], [], [], [], 0, 0⟩ rfl 0 (by decide)
  exact ⟨h.1, h.2.1, h.2.2.2.2.2.2.2.2.2.2.2.2.2.2.1, h.2.2.2.2.2.2.2.2.2.2.2.2.2.2.2⟩

end CuDNNConvolutionLayer

end Caffe
